import Mathlib

/-!
Verification of the phydrus `Model` class (src/pydrus/model.py): a shallow
embedding of its configuration data model, the `SELECTOR.IN` / `PROFILE.DAT`
writers and the `PROFILE.OUT` / `T_LEVEL.OUT` readers, together with proofs
settling the specification claims about them.

Modelling conventions, stated once here:
* Python dict scalars are carried in typed structures.  Booleans are kept as
  `Bool` (the writer tests `is True` / `is False` on them); every other scalar
  (int, float, string, `None`) is carried by the string `str(value)` would
  produce, which is the only way the writer ever consumes it, except where a
  claim needs its numeric value (`NMat`, `iHyst`, `MPL`, the `TPrint` bounds),
  in which case the numeric field is kept and rendered with `toString`, which
  agrees with Python `str` on integers.
* A file is a `List String` of its lines, each line including its trailing
  newline character, exactly as Python `file.readlines` returns them.
* Raising an exception is modelled with `Except`: `raise NotImplementedError`
  becomes `Except.error PyErr.notImplementedError`, and dereferencing an
  attribute of `None` (e.g. `self.material.to_string()` when no material was
  ever added) becomes `Except.error PyErr.attributeErrorNone`.  A method that
  mutates nothing returns the unchanged `Model` next to its result, so frame
  claims are about the returned state.
* `pandas.DataFrame` is modelled by `Frame` (column names plus rows of cell
  strings).  `pandas.DataFrame.to_string` pads cells into aligned columns;
  that third-party padding is not modelled (no claim depends on it): the
  rendering is one header line followed by one line per row.
* The `str()` decimal rendering of the IEEE floats produced by
  `numpy.logspace` is not modelled; the print-times value line carries one
  opaque token per value.  The numeric sequence itself is modelled exactly by
  `logspace` over `ℝ` below (`numpy.logspace(a, b, n) = 10 ** linspace(a, b, n)`).
-/

set_option maxRecDepth 16384

namespace Phydrus

/-- Equality of `Except` results is decidable componentwise. -/
instance {ε α : Type} [DecidableEq ε] [DecidableEq α] :
    DecidableEq (Except ε α) := fun a b =>
  match a, b with
  | Except.error x, Except.error y =>
    if h : x = y then isTrue (by rw [h]) else isFalse (by simp [h])
  | Except.ok x, Except.ok y =>
    if h : x = y then isTrue (by rw [h]) else isFalse (by simp [h])
  | Except.error _, Except.ok _ => isFalse (by simp)
  | Except.ok _, Except.error _ => isFalse (by simp)

/-- A Python scalar as stored in the configuration dictionaries: a boolean, or
any other value carried by its `str()` rendering. -/
inductive Val where
  | bool : Bool → Val
  | str : String → Val
deriving DecidableEq, Repr

/-- The value formatting of the writer loops in `write_selector`:
`if val is True: "t" elif val is False: "f" else: str(val)`. -/
def fmtVal : Val → String
  | Val.bool true => "t"
  | Val.bool false => "f"
  | Val.str s => s

/-- The `basic_information` dictionary set up by `Model.__init__`
(src/pydrus/model.py lines 45-71), with its default values. -/
structure BasicInformation where
  iVer : String := "0.1"
  Hed : String := "Heading"
  LUnit : String
  TUnit : String
  MUnit : String
  lWat : Bool := true
  lChem : Bool := false
  lTemp : Bool := false
  lSink : Bool := false
  lRoot : Bool := false
  lShort : Bool := false
  lWDep : Bool := false
  lScreen : Bool := true
  AtmInf : Bool := false
  lEquil : Bool := true
  lInverse : Bool := false
  lSnow : Bool := false
  lHP1 : Bool := false
  lMeteo : Bool := false
  lVapor : Bool := false
  lActRSU : Bool := false
  lFlux : Bool := false
  NMat : Nat := 0
  NLay : Nat := 1
  CosAlfa : String := "1"
deriving DecidableEq, Repr

/-- The `time_information` dictionary set up by `Model.__init__`
(lines 73-91).  `TPrint1` and `TPrintMPL` keep their numeric values (used by
the `logspace` call); `MPL` keeps its integer value (used as a count). -/
structure TimeInformation where
  dt : String := "0.001"
  dtMin : String := "0.0001"
  dtMax : String := "0.5"
  dMul : String := "1.3"
  dMul2 : String := "0.7"
  ItMin : String := "3"
  ItMax : String := "7"
  MPL : Nat := 4
  tInit : String := "0"
  tMax : String := "1"
  lPrint : Bool := false
  nPrintSteps : String := "1"
  tPrintInterval : String := "1"
  lEnter : Bool := false
  TPrint1 : Int := 0
  TPrint2 : Int := 1
  TPrintMPL : Int := 1
deriving DecidableEq, Repr

/-- The `water_flow` dictionary set up by `Model.__init__` (lines 94-120).
`iHyst` keeps its integer value (compared with `> 0` by the writer). -/
structure WaterFlow where
  MaxIt : String := "20"
  TolTh : String := "0.0001"
  TolH : String := "0.1"
  TopInf : Bool := false
  WLayer : Bool := false
  KodTop : String := "-1"
  lInitW : Bool := true
  BotInf : Bool := false
  qGWLF : Bool := false
  FreeD : Bool := false
  SeepF : Bool := false
  KodBot : String := "1"
  qDrain : Bool := false
  hSeep : String := "0"
  rTop : String := "0"
  rBot : String := "0"
  rRoot : String := "0"
  WGL0L : String := "0"
  Aqh : String := "0"
  Bqh : String := "0"
  ha : String := "0.001"
  hb : String := "1000"
  iModel : String := "0"
  iHyst : Int := 0
  iKappa : String := "-1"
deriving DecidableEq, Repr

/-- A `pandas.DataFrame` as the model uses it: named columns and rows of cell
strings (each cell by its `str()` rendering). -/
structure Frame where
  columns : List String
  rows : List (List String)
deriving DecidableEq, Repr

/-- `DataFrame.append`: row-wise concatenation (the frames the model appends
share their column set). -/
def Frame.append (a b : Frame) : Frame :=
  { columns := a.columns, rows := a.rows ++ b.rows }

/-- `DataFrame.to_string(index=False)` up to the unmodelled pandas column
padding: the header line then one line per row. -/
def Frame.toStringNoIndex (f : Frame) : String :=
  String.intercalate "\n"
    (String.intercalate " " f.columns :: f.rows.map (String.intercalate " "))

/-- `DataFrame.to_string()` (index included) up to the unmodelled pandas
column padding: the header line then one line per row, each row preceded by
its default integer index. -/
def Frame.toStringWithIndex (f : Frame) : String :=
  String.intercalate "\n"
    (String.intercalate " " f.columns ::
      f.rows.enum.map (fun p => String.intercalate " " (toString p.1 :: p.2)))

/-- The in-memory state of a `Model` object.  `description` is carried by its
`str()` rendering (`"None"` when not given); `drain` is the truthiness of
`self.drain` (`None`, hence false, as constructed — `add_drain` has an empty
body); `observations` is the list of observation node indices. -/
structure Model where
  exe_name : String
  ws_name : String
  name : String := "model"
  description : String := "None"
  basic_information : BasicInformation
  time_information : TimeInformation := {}
  water_flow : WaterFlow := {}
  profile : Option Frame := none
  material : Option Frame := none
  observations : List Int := []
  drain : Bool := false
deriving DecidableEq, Repr

/-- The state built by `Model.__init__` (lines 12-131): both tables absent, no
observations, no drain, all dictionaries at their defaults.  The directory
side effect on the workspace is out of scope. -/
def Model.init (exe ws nm desc lu tu mu : String) : Model :=
  { exe_name := exe, ws_name := ws, name := nm, description := desc,
    basic_information := { LUnit := lu, TUnit := tu, MUnit := mu } }

/-- `Model.add_profile` (lines 133-137): replace the profile table. -/
def add_profile (m : Model) (profile : Frame) : Model :=
  { m with profile := some profile }

/-- `Model.add_material` (lines 139-160): append the rows to the material
table (installing the table if none was present), then increment `NMat` by
one — by one per call, not per appended row. -/
def add_material (m : Model) (material : Frame) : Model :=
  { m with
    material := some (match m.material with
      | none => material
      | some cur => Frame.append cur material),
    basic_information :=
      { m.basic_information with NMat := m.basic_information.NMat + 1 } }

/-- The number of rows of the material table (`0` while it is `None`). -/
def matRowCount (m : Model) : Nat :=
  match m.material with
  | none => 0
  | some f => f.rows.length

/-- The exceptions the writers can raise. -/
inductive PyErr where
  | notImplementedError
  | attributeErrorNone
deriving DecidableEq, Repr

/-- One left-justified fill-padded field, Python `format(s, "*<w")`: pad `s`
on the right with the fill character up to `width` (no truncation). -/
def lfill (s : String) (fill : Char) (width : Nat) : String :=
  s ++ String.mk (List.replicate (width - s.length) fill)

/-- A banner line of `write_selector` without its newline: the source's
`"***{:{fill}{align}{width}}"` with `fill="*"`, `align="<"`, `width=72`
(line 196): three asterisks then the title left-justified in a 72-wide
asterisk-filled field. -/
def bannerBody (title : String) : String :=
  "***" ++ lfill title '*' 72

/-- A full banner line including its newline. -/
def banner (title : String) : String :=
  bannerBody title ++ "\n"

/-- A single quote character, used in the closing banner title. -/
def squote : String := String.mk [Char.ofNat 39]

/-- The closing banner title of `write_selector` (line 371). -/
def endTitle : String :=
  " END OF INPUT FILE " ++ squote ++ "SELECTOR.IN" ++ squote ++ " "

/-- The two lines a scalar-group loop iteration appends (lines 216-228,
252-264, 283-295): the header line joins the variable names with `hsep`, the
value line joins the formatted values with `vsep`; both lists carry the
trailing `"\n"` entry of the source's `vars` / `vals` lists. -/
def groupLines (hsep vsep : String) (g : List (String × Val)) : List String :=
  [String.intercalate hsep (g.map Prod.fst ++ ["\n"]),
   String.intercalate vsep (g.map (fun p => fmtVal p.snd) ++ ["\n"])]

/-- First `vars2` group of block A (lines 211-212) paired with its dictionary
values. -/
def biG1 (bi : BasicInformation) : List (String × Val) :=
  [("lWat", Val.bool bi.lWat), ("lChem", Val.bool bi.lChem),
   ("lTemp", Val.bool bi.lTemp), ("lSink", Val.bool bi.lSink),
   ("lRoot", Val.bool bi.lRoot), ("lShort", Val.bool bi.lShort),
   ("lWDep", Val.bool bi.lWDep), ("lScreen", Val.bool bi.lScreen),
   ("AtmInf", Val.bool bi.AtmInf), ("lEquil", Val.bool bi.lEquil),
   ("lInverse", Val.bool bi.lInverse)]

/-- Second `vars2` group of block A (lines 213-214). -/
def biG2 (bi : BasicInformation) : List (String × Val) :=
  [("lSnow", Val.bool bi.lSnow), ("lHP1", Val.bool bi.lHP1),
   ("lMeteo", Val.bool bi.lMeteo), ("lVapor", Val.bool bi.lVapor),
   ("lActRSU", Val.bool bi.lActRSU), ("lFlux", Val.bool bi.lFlux)]

/-- Block A: BASIC INFORMATION (lines 200-234). -/
def blockA (m : Model) : List String :=
  [banner " BLOCK A: BASIC INFORMATION ",
   m.basic_information.Hed ++ "\n",
   m.description ++ "\n",
   "LUnit  TUnit  MUnit  (indicated units are obligatory for all input data)\n",
   m.basic_information.LUnit ++ "\n",
   m.basic_information.TUnit ++ "\n",
   m.basic_information.MUnit ++ "\n"]
  ++ groupLines "  " "     " (biG1 m.basic_information)
  ++ groupLines "  " "     " (biG2 m.basic_information)
  ++ [String.intercalate "  " (["NMat", "NLay", "CosAlfa"] ++ ["\n"]),
      String.intercalate "   "
        [toString m.basic_information.NMat, toString m.basic_information.NLay,
         m.basic_information.CosAlfa],
      "\n"]

/-- The five `vars2` groups of block B (lines 245-250) paired with their
dictionary values. -/
def wfG1 (wf : WaterFlow) : List (String × Val) :=
  [("TopInf", Val.bool wf.TopInf), ("WLayer", Val.bool wf.WLayer),
   ("KodTop", Val.str wf.KodTop), ("lInitW", Val.bool wf.lInitW)]

def wfG2 (wf : WaterFlow) : List (String × Val) :=
  [("BotInf", Val.bool wf.BotInf), ("qGWLF", Val.bool wf.qGWLF),
   ("FreeD", Val.bool wf.FreeD), ("SeepF", Val.bool wf.SeepF),
   ("KodBot", Val.str wf.KodBot), ("qDrain", Val.bool wf.qDrain),
   ("hSeep", Val.str wf.hSeep)]

def wfG3 (wf : WaterFlow) : List (String × Val) :=
  [("rTop", Val.str wf.rTop), ("rBot", Val.str wf.rBot),
   ("rRoot", Val.str wf.rRoot)]

def wfG4 (wf : WaterFlow) : List (String × Val) :=
  [("ha", Val.str wf.ha), ("hb", Val.str wf.hb)]

def wfG5 (wf : WaterFlow) : List (String × Val) :=
  [("iModel", Val.str wf.iModel), ("iHyst", Val.str (toString wf.iHyst))]

/-- Block B: WATER FLOW INFORMATION (lines 236-264), without the conditional
`iKappa` sub-block. -/
def blockB (m : Model) : List String :=
  [banner " BLOCK B: WATER FLOW INFORMATION ",
   "MaxIt  TolTh  TolH   (maximum number of iterations and tolerances)\n",
   String.intercalate "   "
     [m.water_flow.MaxIt, m.water_flow.TolTh, m.water_flow.TolH],
   "\n"]
  ++ groupLines "  " "     " (wfG1 m.water_flow)
  ++ groupLines "  " "     " (wfG2 m.water_flow)
  ++ groupLines "  " "     " (wfG3 m.water_flow)
  ++ groupLines "  " "     " (wfG4 m.water_flow)
  ++ groupLines "  " "     " (wfG5 m.water_flow)

/-- The conditional `iKappa` sub-block (lines 266-267). -/
def iKappaPart (wf : WaterFlow) : List String :=
  if wf.iHyst > 0 then ["iKappa\n" ++ wf.iKappa ++ "\n"] else []

/-- The three `vars3` groups of block C (lines 280-282) paired with their
dictionary values. -/
def tiG1 (ti : TimeInformation) : List (String × Val) :=
  [("dt", Val.str ti.dt), ("dtMin", Val.str ti.dtMin),
   ("dtMax", Val.str ti.dtMax), ("dMul", Val.str ti.dMul),
   ("dMul2", Val.str ti.dMul2), ("ItMin", Val.str ti.ItMin),
   ("ItMax", Val.str ti.ItMax), ("MPL", Val.str (toString ti.MPL))]

def tiG2 (ti : TimeInformation) : List (String × Val) :=
  [("tInit", Val.str ti.tInit), ("tMax", Val.str ti.tMax)]

def tiG3 (ti : TimeInformation) : List (String × Val) :=
  [("lPrint", Val.bool ti.lPrint), ("nPrintSteps", Val.str ti.nPrintSteps),
   ("tPrintInterval", Val.str ti.tPrintInterval),
   ("lEnter", Val.bool ti.lEnter)]

/-- Block C: TIME INFORMATION, scalar groups (lines 276-295).  Note both the
header line and the value line of each group are joined with a single space
(`" ".join`, lines 284 and 295). -/
def blockC (ti : TimeInformation) : List String :=
  [banner " BLOCK C: TIME INFORMATION "]
  ++ groupLines " " " " (tiG1 ti)
  ++ groupLines " " " " (tiG2 ti)
  ++ groupLines " " " " (tiG3 ti)

/-- The print-times value line tokens (lines 298-301).  The numeric sequence
is `numpy.logspace(TPrint1, log10(TPrintMPL), MPL)`, modelled exactly by
`logspace` over `ℝ` below; its IEEE `str()` decimal rendering is not
modelled, so the line carries one opaque token per value — `MPL` of them,
since `numpy.logspace` always returns `num` values. -/
def timesTokens (ti : TimeInformation) : List String :=
  List.replicate ti.MPL "<float>"

/-- The print-times part of block C (lines 297-302). -/
def timesPart (ti : TimeInformation) : List String :=
  ["TPrint(1),TPrint(2),...,TPrint(MPL)\n",
   String.intercalate " " (timesTokens ti),
   "\n"]

/-- The complete `lines` list `write_selector` writes to `SELECTOR.IN` on the
success path, in source order: version line, blocks A and B, the conditional
`iKappa` sub-block, the material table dump, block C with the print times and
the closing banner.  All conditional blocks D-M either raise or are dead code,
so they contribute no lines. -/
def selectorLines (m : Model) (mat : Frame) : List String :=
  ["Pcp_File_Version=4\n"]
  ++ blockA m
  ++ blockB m
  ++ iKappaPart m.water_flow
  ++ [mat.toStringNoIndex, "\n"]
  ++ blockC m.time_information
  ++ timesPart m.time_information
  ++ [banner endTitle]

/-- `Model.write_selector` (lines 191-378).  The `lines` list is assembled
purely and becomes observable only at the final file write, so the embedding
computes it in `selectorLines`; the raise sites are kept in source order, all
of them before the file write: the drain check (line 269) precedes the
material dereference (line 273), which precedes the unsupported-section flag
checks (lines 304-368) — two of which test constant `False` and one of which
re-tests `lChem` — and the file is written only after all of them (line
376).  The returned `Model` is the object state after the call, which no
statement of the method mutates. -/
def write_selector (m : Model) : Except PyErr (Model × List String) :=
  if m.drain then Except.error PyErr.notImplementedError
  else
    match m.material with
    | none => Except.error PyErr.attributeErrorNone
    | some mat =>
      if m.basic_information.lRoot then Except.error PyErr.notImplementedError
      else if m.basic_information.lTemp then Except.error PyErr.notImplementedError
      else if m.basic_information.lChem then Except.error PyErr.notImplementedError
      else if m.basic_information.lSink then Except.error PyErr.notImplementedError
      else if m.basic_information.AtmInf then Except.error PyErr.notImplementedError
      else if m.basic_information.lInverse then Except.error PyErr.notImplementedError
      else if m.basic_information.lChem then Except.error PyErr.notImplementedError
      else if m.basic_information.lMeteo then Except.error PyErr.notImplementedError
      else Except.ok (m, selectorLines m mat)

/-- The complete `lines` list `write_profile` writes to `PROFILE.DAT`
(lines 380-406): version line, the placeholder `"0"` line, the row-count
summary (`"{} {} {} ".format(nrow, 0, 0)`), the profile dump with its index,
the observation count (with `os.linesep`, `"\n"` on the platform in scope)
and the observation indices each preceded by three spaces. -/
def profileLines (m : Model) (prof : Frame) : List String :=
  ["Pcp_File_Version=4\n", "0\n"]
  ++ [toString prof.rows.length ++ " 0 0 "]
  ++ [prof.toStringWithIndex, "\n"]
  ++ [toString m.observations.length ++ "\n"]
  ++ [String.join (m.observations.map (fun i => "   " ++ toString i))]

/-- `Model.write_profile` (lines 380-406): dereferences `self.profile`
(raising on `None`, line 389) and writes `profileLines`; no statement mutates
the object, so the returned state is the input state. -/
def write_profile (m : Model) : Except PyErr (Model × List String) :=
  match m.profile with
  | none => Except.error PyErr.attributeErrorNone
  | some prof => Except.ok (m, profileLines m prof)

/-! ## The tabular readers (`read_profile`, `read_tlevel`, lines 408-471) -/

/-- Whether the character list `marker` occurs inside `cs`. -/
def containsAux (marker : List Char) : List Char → Bool
  | [] => marker.isPrefixOf []
  | c :: cs => marker.isPrefixOf (c :: cs) || containsAux marker cs

/-- Python substring containment, `marker in line`. -/
def strContains (line marker : String) : Bool :=
  containsAux marker.toList line.toList

/-- CPython `file.readlines(hint)` for a positive hint: lines are read one at
a time and accumulation stops as soon as the total size read so far exceeds
the hint, so a line is returned exactly when the total size of the lines
before it is at most the hint (the hint bounds characters, not lines). -/
def readlinesHint (hint : Nat) : List String → List String
  | [] => []
  | l :: ls =>
    l :: (if l.length ≤ hint then readlinesHint (hint - l.length) ls else [])

/-- The marker scan shared by `read_profile` (lines 431-433) and
`read_tlevel` (lines 460-462): `for start, line in enumerate(file.readlines(1000))`
breaking at the first line containing the marker.  The result is the final
value of `start`: the index of the first marker line, the last index of the
window when no line matches (the loop just runs out), and `none` when the
window is empty (`start` is then an unbound name and Python raises
`NameError`). -/
def scanStart (marker : String) (file : List String) : Option Nat :=
  match readlinesHint 1000 file with
  | [] => none
  | w :: ws =>
    some (match (w :: ws).findIdx? (fun l => strContains l marker) with
      | some i => i
      | none => (w :: ws).length - 1)

/-- Split a character list at whitespace runs, accumulating the current
field in reverse. -/
def splitWsAux : List Char → List Char → List String
  | [], acc => if acc.isEmpty then [] else [String.mk acc.reverse]
  | c :: cs, acc =>
    if c.isWhitespace then
      if acc.isEmpty then splitWsAux cs []
      else String.mk acc.reverse :: splitWsAux cs []
    else splitWsAux cs (c :: acc)

/-- Whitespace-run tokenization: the field splitting `pandas.read_csv` does
under `delim_whitespace=True` with `skipinitialspace=True`. -/
def tokenize (line : String) : List String :=
  splitWsAux line.toList []

/-- A parsed frame as `read_csv(..., index_col=0)` returns it: the index
name, the column names and one `(index label, cells)` pair per data row, all
cells as strings. -/
structure PFrame where
  indexName : String
  columns : List String
  rows : List (String × List String)
deriving DecidableEq, Repr

/-- `pandas.read_csv(file, skiprows, skipfooter, index_col=0,
skipinitialspace=True, delim_whitespace=True)` (python engine) as the two
readers call it: drop the first `skiprows` lines, drop blank lines, drop the
last `skipfooter` of the remaining lines, tokenize the rest on whitespace
runs; the first line is the header (token 0 the index name, the rest the
column names) and each further line one data row (token 0 the index label).
`none` is pandas' empty-data failure.  Ragged rows do not arise in the inputs
considered; a row is taken as its tokens. -/
def read_csv (file : List String) (skiprows skipfooter : Nat) :
    Option PFrame :=
  let body := (file.drop skiprows).filter (fun l => tokenize l ≠ [])
  let body := body.take (body.length - skipfooter)
  match body with
  | [] => none
  | header :: dataLines =>
    match tokenize header with
    | [] => none
    | iname :: cols =>
      some { indexName := iname, columns := cols,
             rows := dataLines.map (fun l =>
               match tokenize l with
               | [] => ("", [])
               | i :: cs => (i, cs)) }

/-- The failures the readers can produce. -/
inductive ReadErr where
  | nameErrorStart
  | emptyData
  | indexErrorEmpty
  | valueErrorNumeric
deriving DecidableEq, Repr

/-- `Model.read_profile` (lines 411-438): scan for the `"depth"` marker, then
parse from the recorded offset with a 2-line footer skipped.  There is no
marker-not-found condition: when no window line matches, parsing proceeds
from the window's last index. -/
def read_profile (file : List String) : Except ReadErr PFrame :=
  match scanStart "depth" file with
  | none => Except.error ReadErr.nameErrorStart
  | some start =>
    match read_csv file start 2 with
    | none => Except.error ReadErr.emptyData
    | some df => Except.ok df

/-- An exact decimal number, `mantissa / 10 ^ scale`.  `ℚ` is avoided in the
executable path because its normalizing arithmetic does not reduce inside the
kernel; `Decimal.toRat` gives the represented rational. -/
structure Decimal where
  mantissa : Int
  scale : Nat
deriving DecidableEq, Repr

/-- The rational value a `Decimal` represents. -/
def Decimal.toRat (d : Decimal) : ℚ := (d.mantissa : ℚ) / 10 ^ d.scale

/-- The digit value of a digit character list, most significant first. -/
def digitsToNat (cs : List Char) : Nat :=
  cs.foldl (fun n c => n * 10 + (c.toNat - 48)) 0

/-- `pd.to_numeric` on one cell: parse an optionally negative decimal numeral
with an optional fractional part into its exact value, `none` when the string
is not such a numeral (`ValueError`). -/
def toNumeric (s : String) : Option Decimal :=
  let p : Bool × List Char := match s.toList with
    | '-' :: rest => (true, rest)
    | cs => (false, cs)
  let cs := p.2
  let ip := cs.takeWhile (fun c => c ≠ '.')
  let rest := cs.dropWhile (fun c => c ≠ '.')
  let fp := rest.drop 1
  if ip.all Char.isDigit && fp.all Char.isDigit
      && (!ip.isEmpty || !fp.isEmpty) && !fp.contains '.' then
    let mag : Int := digitsToNat ip * 10 ^ fp.length + digitsToNat fp
    some { mantissa := if p.1 then -mag else mag, scale := fp.length }
  else none

/-- `data.apply(pd.to_numeric)` row by row: coerce every cell, `none` when
any coercion fails (`ValueError`). -/
def numericRows :
    List (String × List String) → Option (List (String × List Decimal))
  | [] => some []
  | r :: rs =>
    match r.2.mapM toNumeric with
    | none => none
    | some vs =>
      match numericRows rs with
      | none => none
      | some tl => some ((r.1, vs) :: tl)

/-- The typed table `read_tlevel` returns: synthesized column names and
numeric rows keyed by their (string) index labels. -/
structure NumFrame where
  columns : List String
  rows : List (String × List Decimal)
deriving DecidableEq, Repr

/-- `Model.read_tlevel` (lines 440-471): scan for the `"rTop"` marker, parse
from that offset with a 2-line footer skipped, synthesize each column name by
concatenating the name-row column with the first data row's (units row's)
cell at the same position (`data.columns = [col + str(col1) ...]`), drop
every row labelled like the units row (`data.drop(data.index[0])`), and
coerce all remaining cells to numbers (`apply(pd.to_numeric)`). -/
def read_tlevel (file : List String) : Except ReadErr NumFrame :=
  match scanStart "rTop" file with
  | none => Except.error ReadErr.nameErrorStart
  | some start =>
    match read_csv file start 2 with
    | none => Except.error ReadErr.emptyData
    | some df =>
      match df.rows with
      | [] => Except.error ReadErr.indexErrorEmpty
      | u :: _ =>
        match numericRows (df.rows.filter (fun r => r.1 != u.1)) with
        | none => Except.error ReadErr.valueErrorNumeric
        | some rs =>
          Except.ok { columns := (df.columns.zip u.2).map (fun q => q.1 ++ q.2),
                      rows := rs }

/-! ## The print-times sequence (lines 297-302) -/

/-- `numpy.logspace(start, stop, num) = 10 ** numpy.linspace(start, stop, num)`:
`num` values whose exponents step evenly from `start` to `stop`. -/
noncomputable def logspace (start stop : ℝ) (num : ℕ) : List ℝ :=
  (List.range num).map
    (fun i => (10 : ℝ) ^ (start + i * ((stop - start) / (num - 1))))

/-- The print-times sequence of `write_selector` (lines 298-300):
`logspace(TPrint(1), log10(TPrint(MPL)), MPL)` — the lower bound passed
un-logged, the upper bound logged (`numpy.log10 = Real.logb 10`). -/
noncomputable def selectorTimes (ti : TimeInformation) : List ℝ :=
  logspace (ti.TPrint1 : ℝ) (Real.logb 10 (ti.TPrintMPL : ℝ)) ti.MPL

/-! ## Concrete fixtures used by witnesses and counterexamples -/

/-- A freshly constructed model (`Model.__init__` with the documented default
units): no material, no profile. -/
def freshModel : Model :=
  Model.init "hydrus" "ws" "model" "None" "m" "days" "mmol"

/-- A one-row material table, as in the `add_material` docstring example. -/
def exampleMaterial : Frame :=
  { columns := ["thr", "ths", "Alfa", "n", "Ks", "l"],
    rows := [["0.08", "0.3421", "0.03", "5", "1", "-0.5"]] }

/-- A two-row material table: one `add_material` call appending it makes the
row count and `NMat` disagree. -/
def twoRowMaterial : Frame :=
  { columns := ["thr", "ths"],
    rows := [["0.08", "0.3421"], ["0.05", "0.41"]] }

/-- A small profile table. -/
def exampleProfile : Frame :=
  { columns := ["x", "h"], rows := [["0", "1"], ["-100", "1"]] }

/-- A model ready for writing: fresh state plus one material and a profile. -/
def readyModel : Model :=
  add_profile (add_material freshModel exampleMaterial) exampleProfile

/-- The success output of `write_selector` on `readyModel`. -/
def readySelOut : Model × List String :=
  (write_selector readyModel).toOption.getD (readyModel, [])

/-- The success output of `write_profile` on `readyModel`. -/
def readyProfOut : Model × List String :=
  (write_profile readyModel).toOption.getD (readyModel, [])

/-- `readyModel` with the unsupported solute-transport flag set. -/
def chemModel : Model :=
  { readyModel with
    basic_information := { readyModel.basic_information with lChem := true } }

/-- A fresh model (no material) with the unsupported root-growth flag set. -/
def rootNoMatModel : Model :=
  { freshModel with
    basic_information := { freshModel.basic_information with lRoot := true } }

/-- An output file whose first line is 1002 characters long, so that the
`readlines(1000)` window is that single line, and which contains no
`"depth"` marker anywhere. -/
def longLine : String :=
  String.mk (List.replicate 995 'a') ++ " c1 c2\n"

def fileNoMarker : List String :=
  [longLine, "i1 1 2\n", "i2 3 4\n", "f 9 9\n", "g 9 9\n"]

/-- A small profile-style output file with the `"depth"` marker on line 1. -/
def fileProfileOut : List String :=
  ["junk\n", "depth h\n", "1 2\n", "2 3\n", "end\n", "bye\n"]

/-- A 100-character filler line without any marker. -/
def xline : String := String.mk (List.replicate 99 'x') ++ "\n"

/-- A file whose `"depth"` marker sits on line 11, while the 1000-character
`readlines` hint exhausts after the 11 filler lines 0-10. -/
def fileLateMarker : List String :=
  List.replicate 11 xline
    ++ ["depth water\n", "cm cm3\n", "1 2\n", "2 3\n", "end\n", "bye\n"]

/-- A T_LEVEL-style output file: one preamble line, the names row carrying
the `"rTop"` marker, the units row, two data rows and the 2-line footer. -/
def fileTlevel : List String :=
  ["Welcome\n", "Time rTop rBot\n", "T L L\n", "1 0.5 0.25\n",
   "2 1.5 2.5\n", "end of simulation\n", "bye\n"]

/-- The parsed frame `read_csv` yields on `fileTlevel` from offset 1. -/
def tlevelDf : PFrame :=
  (read_csv fileTlevel 1 2).getD { indexName := "", columns := [], rows := [] }

/-- The typed table `read_tlevel` yields on `fileTlevel`. -/
def tlevelOut : NumFrame :=
  (read_tlevel fileTlevel).toOption.getD { columns := [], rows := [] }

/-! ## Helper lemmas -/

/-- One `add_material` call increments `NMat` by exactly one. -/
theorem nmat_step (m : Model) (a : Frame) :
    (add_material m a).basic_information.NMat
      = m.basic_information.NMat + 1 := rfl

/-- One `add_material` call grows the material table by the appended frame's
row count. -/
theorem matRowCount_step (m : Model) (a : Frame) :
    matRowCount (add_material m a) = matRowCount m + a.rows.length := by
  cases h : m.material with
  | none => simp [matRowCount, add_material, h]
  | some f => simp [matRowCount, add_material, h, Frame.append]

/-- Inversion of a successful `write_selector` call: the material table was
present and the output is the written state and lines. -/
theorem write_selector_ok_inv (m : Model) (out : Model × List String)
    (h : write_selector m = Except.ok out) :
    ∃ mat, m.material = some mat ∧ out = (m, selectorLines m mat) := by
  by_cases hd : m.drain = true
  · simp [write_selector, hd] at h
  · cases hm : m.material with
    | none => simp [write_selector, hd, hm] at h
    | some mat =>
      refine ⟨mat, rfl, ?_⟩
      simp only [write_selector, hd, hm, if_false, Bool.false_eq_true] at h
      split_ifs at h
      all_goals simp_all

/-- Inversion of a successful `write_profile` call. -/
theorem write_profile_ok_inv (m : Model) (out : Model × List String)
    (h : write_profile m = Except.ok out) :
    ∃ prof, m.profile = some prof ∧ out = (m, profileLines m prof) := by
  cases hp : m.profile with
  | none => simp [write_profile, hp] at h
  | some prof =>
    refine ⟨prof, rfl, ?_⟩
    simp [write_profile, hp] at h
    exact h.symm

/-- An infix of the middle part is an infix of the whole. -/
theorem isInfix_append_of_left {α : Type} {x l : List α} (r : List α)
    (h : x <:+: l) : x <:+: l ++ r := by
  obtain ⟨s, t, hst⟩ := h
  exact ⟨s, t ++ r, by rw [← hst]; simp [List.append_assoc]⟩

theorem isInfix_append_of_right {α : Type} {x r : List α} (l : List α)
    (h : x <:+: r) : x <:+: l ++ r := by
  obtain ⟨s, t, hst⟩ := h
  exact ⟨l ++ s, t, by rw [← hst]; simp [List.append_assoc]⟩

/-- `findIdx?` finds nothing when the predicate holds nowhere. -/
theorem findIdx?_none_of (p : String → Bool) :
    ∀ l : List String, (∀ x ∈ l, p x = false) → l.findIdx? p = none := by
  intro l h
  induction l with
  | nil => rfl
  | cons a as ih =>
    have ha := h a (List.mem_cons_self a as)
    simp [List.findIdx?_cons, ha,
      ih (fun x hx => h x (List.mem_cons_of_mem a hx))]

/-- The `readlines(hint)` window is a prefix of the file. -/
theorem readlinesHint_prefix (hint : Nat) (file : List String) :
    readlinesHint hint file <+: file := by
  induction file generalizing hint with
  | nil => exact List.nil_prefix
  | cons l ls ih =>
    unfold readlinesHint
    by_cases h : l.length ≤ hint
    · rw [if_pos h]
      exact List.cons_prefix_cons.mpr ⟨rfl, ih (hint - l.length)⟩
    · rw [if_neg h]
      exact List.cons_prefix_cons.mpr ⟨rfl, List.nil_prefix⟩

/-- Every line of the `readlines(hint)` window starts within the hint: the
total size of the lines before it is at most `hint` characters. -/
theorem readlinesHint_size (hint : Nat) (file : List String) :
    ∀ j < (readlinesHint hint file).length,
      ((file.take j).map String.length).sum ≤ hint := by
  induction file generalizing hint with
  | nil => intro j hj; simp [readlinesHint] at hj
  | cons l ls ih =>
    intro j hj
    cases j with
    | zero => simp
    | succ k =>
      unfold readlinesHint at hj
      by_cases h : l.length ≤ hint
      · rw [if_pos h] at hj
        have hk : k < (readlinesHint (hint - l.length) ls).length := by
          simpa using hj
        have := ih (hint - l.length) k hk
        simp only [List.take_succ_cons, List.map_cons, List.sum_cons]
        omega
      · rw [if_neg h] at hj
        simp at hj

/-- `numericRows` preserves the row count when it succeeds. -/
theorem numericRows_length :
    ∀ (l : List (String × List String)) (rs : List (String × List Decimal)),
      numericRows l = some rs → rs.length = l.length := by
  intro l
  induction l with
  | nil =>
    intro rs h
    simp [numericRows] at h
    simp [← h]
  | cons r rest ih =>
    intro rs h
    unfold numericRows at h
    cases hm : r.2.mapM toNumeric with
    | none => rw [hm] at h; exact absurd h (by simp)
    | some vs =>
      rw [hm] at h
      cases hn : numericRows rest with
      | none => rw [hn] at h; exact absurd h (by simp)
      | some tl =>
        rw [hn] at h
        have := ih tl hn
        simp at h
        simp [← h, this]

/-- The row count of a successful `read_csv` parse on a blank-line-free body:
one line per file line after the skipped prefix, minus the footer, minus the
header line. -/
theorem read_csv_rows_length (file : List String)
    (skiprows skipfooter : Nat) (df : PFrame)
    (hb : ∀ l ∈ file.drop skiprows, tokenize l ≠ [])
    (h : read_csv file skiprows skipfooter = some df) :
    df.rows.length = file.length - skiprows - skipfooter - 1 := by
  simp only [read_csv] at h
  rw [List.filter_eq_self.mpr (fun a ha => by simpa using hb a ha)] at h
  cases hbody : (file.drop skiprows).take ((file.drop skiprows).length - skipfooter) with
  | nil => rw [hbody] at h; simp at h
  | cons header dataLines =>
    rw [hbody] at h
    dsimp only at h
    cases ht : tokenize header with
    | nil => rw [ht] at h; simp at h
    | cons iname cols =>
      rw [ht] at h
      dsimp only at h
      simp only [Option.some.injEq] at h
      have hdf : df.rows.length = dataLines.length := by
        rw [← h]
        exact List.length_map _ _
      have h1 : (header :: dataLines).length
          = min ((file.drop skiprows).length - skipfooter)
              (file.drop skiprows).length := by
        rw [← hbody]
        exact List.length_take _ _
      simp only [List.length_cons, List.length_drop] at h1
      omega

/-! ## Claim theorems -/

/-- **C1**, corrected.  `add_material` increments `NMat` exactly once per
call and never decrements it, so after any sequence of calls `NMat` equals
the initial count plus the number of calls; the material table meanwhile
grows by the row count of every appended frame, so `NMat` equals the number
of rows of the material table only when every appended frame has exactly one
row — not "regardless of how many rows the appended table contains". -/
theorem add_material_nmat_counts_calls (m : Model) (mats : List Frame) :
    (mats.foldl add_material m).basic_information.NMat
        = m.basic_information.NMat + mats.length
      ∧ matRowCount (mats.foldl add_material m)
        = matRowCount m + (mats.map (fun f => f.rows.length)).sum := by
  induction mats generalizing m with
  | nil => simp
  | cons a as ih =>
    have h := ih (add_material m a)
    constructor
    · rw [List.foldl_cons, h.1, nmat_step]
      simp
      omega
    · rw [List.foldl_cons, h.2, matRowCount_step]
      simp
      omega

/-- **C1**, counterexample to the claim as stated: appending one two-row
material table to a fresh model leaves `NMat = 1` while the material table
has 2 rows, so `NMat` does not equal the row count of the material table. -/
theorem add_material_nmat_counterexample :
    (add_material freshModel twoRowMaterial).basic_information.NMat = 1
  ∧ matRowCount (add_material freshModel twoRowMaterial) = 2
  ∧ (1 : Nat) ≠ 2 := by decide

/-- **C4**, corrected.  With any unsupported flag set (`lRoot`, `lTemp`,
`lChem`, `lSink`, `AtmInf`, `lInverse`, `lMeteo`, or a drain present),
`write_selector` fails before any file content is produced — always with
`NotImplementedError` when a drain is present or the material table is
present; when the material table is absent and only section flags are set,
the failure (still before any file is written) is the attribute error on the
absent material table instead, because the material dereference precedes the
section flag checks. -/
theorem write_selector_unsupported (m : Model)
    (h : m.basic_information.lRoot = true ∨ m.basic_information.lTemp = true
      ∨ m.basic_information.lChem = true ∨ m.basic_information.lSink = true
      ∨ m.basic_information.AtmInf = true
      ∨ m.basic_information.lInverse = true
      ∨ m.basic_information.lMeteo = true ∨ m.drain = true) :
    (∃ e, write_selector m = Except.error e)
  ∧ (m.drain = true ∨ m.material ≠ none →
      write_selector m = Except.error PyErr.notImplementedError) := by
  by_cases hd : m.drain = true
  · exact ⟨⟨PyErr.notImplementedError, by simp [write_selector, hd]⟩,
      fun _ => by simp [write_selector, hd]⟩
  · cases hm : m.material with
    | none =>
      refine ⟨⟨PyErr.attributeErrorNone, by simp [write_selector, hd, hm]⟩, ?_⟩
      intro hc
      rcases hc with hc | hc
      · exact absurd hc hd
      · exact absurd rfl hc
    | some mat =>
      have hni : write_selector m = Except.error PyErr.notImplementedError := by
        simp only [write_selector, hd, hm, if_false, Bool.false_eq_true]
        split_ifs with h1 h2 h3 h4 h5 h6 h7
        any_goals rfl
        rcases h with h | h | h | h | h | h | h | h
        all_goals simp_all
      exact ⟨⟨PyErr.notImplementedError, hni⟩, fun _ => hni⟩

/-- **C4**, witness: on a model with the solute-transport flag set and a
material table present, `write_selector` fails with `NotImplementedError`. -/
theorem write_selector_unsupported_witness :
    (∃ e, write_selector chemModel = Except.error e)
  ∧ (chemModel.drain = true ∨ chemModel.material ≠ none →
      write_selector chemModel = Except.error PyErr.notImplementedError) :=
  write_selector_unsupported chemModel (by decide)

/-- **C4**, counterexample to the claim as stated: with `lRoot` set but no
material table ever added, the call fails with the attribute error on the
absent material table, not with a not-implemented error. -/
theorem write_selector_unsupported_counterexample :
    rootNoMatModel.basic_information.lRoot = true
  ∧ write_selector rootNoMatModel = Except.error PyErr.attributeErrorNone
  ∧ PyErr.attributeErrorNone ≠ PyErr.notImplementedError := by decide

/-- **C9**, confirmed.  A model whose material table is absent (`None`, its
constructed default) makes `write_selector` fail rather than produce file
content — the drain check or the unconditional material rendering raises
first — so a present material table is a precondition for success. -/
theorem write_selector_requires_material (m : Model) :
    (m.material = none → ∃ e, write_selector m = Except.error e)
  ∧ (∀ out, write_selector m = Except.ok out → m.material ≠ none) := by
  constructor
  · intro hnone
    by_cases hd : m.drain = true
    · exact ⟨PyErr.notImplementedError, by simp [write_selector, hd]⟩
    · exact ⟨PyErr.attributeErrorNone, by simp [write_selector, hd, hnone]⟩
  · intro out hok hnone
    obtain ⟨mat, hm, _⟩ := write_selector_ok_inv m out hok
    rw [hnone] at hm
    exact absurd hm (by simp)

/-- **C9**, witness: the freshly constructed model has no material table and
`write_selector` fails on it. -/
theorem write_selector_requires_material_witness :
    ∃ e, write_selector freshModel = Except.error e :=
  (write_selector_requires_material freshModel).1 rfl

/-- **C10**, confirmed.  `write_selector` and `write_profile` leave the
model state unchanged: on success the returned state equals the input state
field by field, and calling again from that state gives the identical
result. -/
theorem write_preserves_state (m : Model) (out : Model × List String) :
    (write_selector m = Except.ok out →
       out.1.basic_information = m.basic_information
     ∧ out.1.water_flow = m.water_flow
     ∧ out.1.time_information = m.time_information
     ∧ out.1.material = m.material
     ∧ out.1.profile = m.profile
     ∧ out.1.observations = m.observations
     ∧ write_selector out.1 = write_selector m)
  ∧ (write_profile m = Except.ok out →
       out.1 = m ∧ write_profile out.1 = write_profile m) := by
  constructor
  · intro h
    obtain ⟨mat, hm, hout⟩ := write_selector_ok_inv m out h
    rw [hout]
    exact ⟨rfl, rfl, rfl, rfl, rfl, rfl, rfl⟩
  · intro h
    obtain ⟨prof, hp, hout⟩ := write_profile_ok_inv m out h
    rw [hout]
    exact ⟨rfl, rfl⟩

/-- **C10**, witness: on a concrete ready model both writers succeed and
return the unchanged state. -/
theorem write_preserves_state_witness :
    readySelOut.1.basic_information = readyModel.basic_information
  ∧ readyProfOut.1 = readyModel :=
  ⟨((write_preserves_state readyModel readySelOut).1 rfl).1,
   ((write_preserves_state readyModel readyProfOut).2 rfl).1⟩

/-- The four banner titles `write_selector` emits. -/
def selectorBannerTitles : List String :=
  [" BLOCK A: BASIC INFORMATION ", " BLOCK B: WATER FLOW INFORMATION ",
   " BLOCK C: TIME INFORMATION ", endTitle]

/-- **C2**, corrected.  Every banner line `write_selector` emits (the three
section headers and the closing line) appears in the output and is exactly
75 characters wide excluding its newline — a 3-character `***` prefix plus
the 72-character left-justified padded field — not 72 characters. -/
theorem selector_banner_width (m : Model) (out : Model × List String)
    (h : write_selector m = Except.ok out) :
    ∀ t ∈ selectorBannerTitles,
      banner t ∈ out.2 ∧ (bannerBody t).length = 75 := by
  obtain ⟨mat, hm, hout⟩ := write_selector_ok_inv m out h
  intro t ht
  rw [hout]
  fin_cases ht
  · exact ⟨by simp [selectorLines, blockA], by decide⟩
  · exact ⟨by simp [selectorLines, blockB], by decide⟩
  · exact ⟨by simp [selectorLines, blockC], by decide⟩
  · exact ⟨by simp [selectorLines], by decide⟩

/-- **C2**, witness: the BLOCK A banner is in the concrete output and is 75
characters wide. -/
theorem selector_banner_width_witness :
    banner " BLOCK A: BASIC INFORMATION " ∈ readySelOut.2
  ∧ (bannerBody " BLOCK A: BASIC INFORMATION ").length = 75 :=
  selector_banner_width readyModel readySelOut rfl
    " BLOCK A: BASIC INFORMATION " (by decide)

/-- **C2**, counterexample to the claim as stated: the BLOCK B banner line
of a concrete successful output is 75 characters wide, not 72. -/
theorem selector_banner_width_counterexample :
    banner " BLOCK B: WATER FLOW INFORMATION " ∈ readySelOut.2
  ∧ (bannerBody " BLOCK B: WATER FLOW INFORMATION ").length = 75
  ∧ (75 : Nat) ≠ 72 := by decide

/-- **C5**, corrected.  In blocks A and B each scalar group joins its header
names with two spaces and its values with five spaces — distinct delimiters —
but in the block C time-information groups both the header line and the value
line are joined with a single space, so the delimiters are *not* distinct for
every scalar group; booleans render as exactly `"t"`/`"f"` and every other
value as its `str()` rendering. -/
theorem scalar_group_delimiters (m : Model) (out : Model × List String)
    (h : write_selector m = Except.ok out) :
    groupLines "  " "     " (biG1 m.basic_information) <:+: out.2
  ∧ groupLines "  " "     " (wfG1 m.water_flow) <:+: out.2
  ∧ groupLines " " " " (tiG1 m.time_information) <:+: out.2
  ∧ ("  " : String) ≠ "     "
  ∧ fmtVal (Val.bool true) = "t"
  ∧ fmtVal (Val.bool false) = "f"
  ∧ (∀ s, fmtVal (Val.str s) = s) := by
  obtain ⟨mat, hm, hout⟩ := write_selector_ok_inv m out h
  rw [hout]
  refine ⟨?_, ?_, ?_, by decide, rfl, rfl, fun s => rfl⟩
  · show groupLines "  " "     " (biG1 m.basic_information) <:+: selectorLines m mat
    unfold selectorLines blockA
    apply isInfix_append_of_left
    apply isInfix_append_of_left
    apply isInfix_append_of_left
    apply isInfix_append_of_left
    apply isInfix_append_of_left
    apply isInfix_append_of_left
    apply isInfix_append_of_right
    apply isInfix_append_of_left
    apply isInfix_append_of_left
    apply isInfix_append_of_right
    exact List.infix_refl _
  · show groupLines "  " "     " (wfG1 m.water_flow) <:+: selectorLines m mat
    unfold selectorLines blockB
    apply isInfix_append_of_left
    apply isInfix_append_of_left
    apply isInfix_append_of_left
    apply isInfix_append_of_left
    apply isInfix_append_of_left
    apply isInfix_append_of_right
    apply isInfix_append_of_left
    apply isInfix_append_of_left
    apply isInfix_append_of_left
    apply isInfix_append_of_left
    apply isInfix_append_of_right
    exact List.infix_refl _
  · show groupLines " " " " (tiG1 m.time_information) <:+: selectorLines m mat
    unfold selectorLines blockC
    apply isInfix_append_of_left
    apply isInfix_append_of_left
    apply isInfix_append_of_right
    apply isInfix_append_of_left
    apply isInfix_append_of_left
    apply isInfix_append_of_right
    exact List.infix_refl _

/-- **C5**, witness: on a concrete successful output, the block A flag group
(two-space/five-space join) and the block C time group (single-space join on
both lines) both occur. -/
theorem scalar_group_delimiters_witness :
    groupLines "  " "     " (biG1 readyModel.basic_information) <:+: readySelOut.2
  ∧ groupLines " " " " (tiG1 readyModel.time_information) <:+: readySelOut.2 := by
  have h := scalar_group_delimiters readyModel readySelOut rfl
  exact ⟨h.1, h.2.2.1⟩

/-- **C5**, counterexample to the claim as stated: the block C `dt` group's
header line and value line are both single-space joins — the same delimiter
on both lines, with the two single-space-joined lines literally present in a
concrete successful output. -/
theorem scalar_group_delimiters_counterexample :
    "dt dtMin dtMax dMul dMul2 ItMin ItMax MPL \n" ∈ readySelOut.2
  ∧ "0.001 0.0001 0.5 1.3 0.7 3 7 4 \n" ∈ readySelOut.2
  ∧ groupLines " " " " (tiG1 readyModel.time_information)
      = ["dt dtMin dtMax dMul dMul2 ItMin ItMax MPL \n",
         "0.001 0.0001 0.5 1.3 0.7 3 7 4 \n"] := by decide

/-- **C7**, confirmed.  With the default time information
(`TPrint(1) = 0`, `TPrint(MPL) = 1`, `MPL = 4`), the print-times sequence
`logspace(0, log10(1), 4)` is monotonically non-decreasing and its last
element equals `1.0` (the sequence is `[1, 1, 1, 1]` exactly, also in IEEE
arithmetic, since every exponent is zero). -/
theorem selector_times_monotone_last :
    List.Chain' (fun a b => a ≤ b) (selectorTimes {})
  ∧ (selectorTimes {}).getLast? = some (1 : ℝ) := by
  have h : selectorTimes {} = [1, 1, 1, 1] := by
    show logspace ((0 : Int) : ℝ) (Real.logb 10 ((1 : Int) : ℝ)) 4 = [1, 1, 1, 1]
    unfold logspace
    norm_num [List.range_succ, Real.logb_one, Real.rpow_zero]
  rw [h]
  refine ⟨?_, rfl⟩
  simp [List.chain'_cons]

/-- **C3**, corrected.  When the scanned window contains no marker line the
read does not fail with a marker-not-found condition: the scan falls through
with the offset at the window's last line and parsing proceeds from there,
returning whatever table results (or pandas' generic empty-data failure);
the only read-side failure specific to the scan is the `NameError` on a
window so empty the loop variable is never bound. -/
theorem read_profile_no_marker (file : List String)
    (h1 : readlinesHint 1000 file ≠ [])
    (h2 : ∀ l ∈ readlinesHint 1000 file, strContains l "depth" = false) :
    read_profile file =
      match read_csv file ((readlinesHint 1000 file).length - 1) 2 with
      | none => Except.error ReadErr.emptyData
      | some df => Except.ok df := by
  have hw : scanStart "depth" file
      = some ((readlinesHint 1000 file).length - 1) := by
    unfold scanStart
    cases hv : readlinesHint 1000 file with
    | nil => exact absurd hv h1
    | cons w ws =>
      rw [hv] at h2
      dsimp only
      rw [findIdx?_none_of _ _ h2]
  unfold read_profile
  rw [hw]

/-- **C3**, witness: on the concrete marker-free file the read returns the
table parsed from the window's last index. -/
theorem read_profile_no_marker_witness :
    read_profile fileNoMarker =
      match read_csv fileNoMarker
          ((readlinesHint 1000 fileNoMarker).length - 1) 2 with
      | none => Except.error ReadErr.emptyData
      | some df => Except.ok df :=
  read_profile_no_marker fileNoMarker (by decide) (by decide)

/-- **C3**, counterexample to the claim as stated: a file containing no
`"depth"` marker anywhere is parsed into a table — the read succeeds instead
of failing with a marker-not-found condition. -/
theorem read_profile_no_marker_counterexample :
    read_profile fileNoMarker =
      Except.ok { indexName := String.mk (List.replicate 995 'a'),
                  columns := ["c1", "c2"],
                  rows := [("i1", ["1", "2"]), ("i2", ["3", "4"])] }
  ∧ fileNoMarker.all (fun l => !strContains l "depth") = true := by decide

/-- **C6**, corrected.  The marker scan examines the lines returned by
`readlines` with a 1000-**character** size hint — a prefix of the file every
line of which starts within the first 1000 characters — not the first 1000
lines; within that window it records the offset of the first marker line,
and parsing then starts at that recorded offset. -/
theorem marker_scan_semantics (file : List String) (i : Nat)
    (h : (readlinesHint 1000 file).findIdx?
        (fun l => strContains l "depth") = some i) :
    scanStart "depth" file = some i
  ∧ readlinesHint 1000 file <+: file
  ∧ (∀ j < (readlinesHint 1000 file).length,
       ((file.take j).map String.length).sum ≤ 1000)
  ∧ read_profile file =
      (match read_csv file i 2 with
       | none => Except.error ReadErr.emptyData
       | some df => Except.ok df) := by
  have hs : scanStart "depth" file = some i := by
    unfold scanStart
    cases hv : readlinesHint 1000 file with
    | nil => rw [hv] at h; exact absurd h (by simp)
    | cons w ws =>
      rw [hv] at h
      dsimp only
      rw [h]
  refine ⟨hs, readlinesHint_prefix _ _, readlinesHint_size _ _, ?_⟩
  unfold read_profile
  rw [hs]

/-- **C6**, witness: on a small file the marker on line 1 is found and
parsing starts there. -/
theorem marker_scan_semantics_witness :
    scanStart "depth" fileProfileOut = some 1
  ∧ read_profile fileProfileOut =
      (match read_csv fileProfileOut 1 2 with
       | none => Except.error ReadErr.emptyData
       | some df => Except.ok df) := by
  have h := marker_scan_semantics fileProfileOut 1 (by decide)
  exact ⟨h.1, h.2.2.2⟩

/-- **C6**, counterexample to the claim as stated: a 17-line file (well
under 1000 lines) whose first marker line is line 11, preceded by eleven
100-character filler lines.  The 1000-character hint cuts the window after
line 10, so the scan records offset 10 — not the marker line 11 the claim's
1000-line window would find. -/
theorem marker_scan_semantics_counterexample :
    scanStart "depth" fileLateMarker = some 10
  ∧ strContains (fileLateMarker.getD 11 "") "depth" = true
  ∧ (fileLateMarker.take 11).all (fun l => !strContains l "depth") = true
  ∧ fileLateMarker.length ≤ 1000
  ∧ (10 : Nat) ≠ 11 := by decide

/-- **C8**, corrected.  For the two-row-header reader `read_tlevel`, each
final column name is the name-row token concatenated with the units-row
token at the same position, the units row is dropped, every remaining cell
is coerced to a numeric value (the whole read failing when any coercion
fails), and the last 2 file lines are discarded as footer — but the result
has exactly (total lines − header offset − 4) data rows, not
(total lines − header offset − 2): the header line itself and the dropped
units row are also excluded. -/
theorem read_tlevel_shape (file : List String) (start : Nat) (df : PFrame)
    (u : String × List String) (rest : List (String × List String))
    (t : NumFrame)
    (h1 : scanStart "rTop" file = some start)
    (h2 : ∀ l ∈ file.drop start, tokenize l ≠ [])
    (h3 : read_csv file start 2 = some df)
    (h4 : df.rows = u :: rest)
    (h5 : ∀ r ∈ rest, r.1 ≠ u.1)
    (h6 : read_tlevel file = Except.ok t) :
    t.columns = (df.columns.zip u.2).map (fun q => q.1 ++ q.2)
  ∧ numericRows rest = some t.rows
  ∧ t.rows.length = file.length - start - 4 := by
  unfold read_tlevel at h6
  rw [h1] at h6
  dsimp only at h6
  rw [h3] at h6
  dsimp only at h6
  rw [h4] at h6
  dsimp only at h6
  have hfilter : (u :: rest).filter (fun r => r.1 != u.1) = rest := by
    rw [List.filter_cons]
    simp only [bne_self_eq_false, Bool.false_eq_true, if_false]
    exact List.filter_eq_self.mpr
      (fun a ha => by simpa [bne_iff_ne] using h5 a ha)
  rw [hfilter] at h6
  cases hn : numericRows rest with
  | none => rw [hn] at h6; exact absurd h6 (by simp)
  | some rs =>
    rw [hn] at h6
    simp only [Except.ok.injEq] at h6
    have hcols : t.columns = (df.columns.zip u.2).map (fun q => q.1 ++ q.2) := by
      rw [← h6]
    have hrs : t.rows = rs := by rw [← h6]
    have hlen1 : rs.length = rest.length := numericRows_length rest rs hn
    have hlen2 : df.rows.length = file.length - start - 2 - 1 :=
      read_csv_rows_length file start 2 df h2 h3
    have hlen3 : df.rows.length = rest.length + 1 := by rw [h4]; rfl
    refine ⟨hcols, ?_, ?_⟩
    · rw [hrs]
    · rw [hrs]; omega

/-- **C8**, witness: on the concrete T_LEVEL file (7 lines, marker offset 1)
the parse succeeds with the synthesized column names and
7 − 1 − 4 = 2 data rows. -/
theorem read_tlevel_shape_witness :
    tlevelOut.columns
      = (tlevelDf.columns.zip ["L", "L"]).map (fun q => q.1 ++ q.2)
  ∧ numericRows [("1", ["0.5", "0.25"]), ("2", ["1.5", "2.5"])]
      = some tlevelOut.rows
  ∧ tlevelOut.rows.length = fileTlevel.length - 1 - 4 := by
  have h := read_tlevel_shape fileTlevel 1 tlevelDf ("T", ["L", "L"])
      [("1", ["0.5", "0.25"]), ("2", ["1.5", "2.5"])] tlevelOut
      (by decide) (by decide) (by decide) (by decide) (by decide) (by decide)
  exact h

/-- **C8**, counterexample to the claim as stated: the concrete 7-line
T_LEVEL file with header offset 1 parses to 2 data rows, not
7 − 1 − 2 = 4. -/
theorem read_tlevel_shape_counterexample :
    read_tlevel fileTlevel =
      Except.ok { columns := ["rTopL", "rBotL"],
                  rows := [("1", [{ mantissa := 5, scale := 1 },
                                  { mantissa := 25, scale := 2 }]),
                           ("2", [{ mantissa := 15, scale := 1 },
                                  { mantissa := 25, scale := 1 }])] }
  ∧ (2 : Nat) ≠ fileTlevel.length - 1 - 2 := by decide

end Phydrus
